import Mathlib

/-!
# Verification of the multi-strategy video resolution-and-fallback engine

Shallow embedding of `dwhelper.py`: the `VideoData` record, the filename
sanitizer, the platform handlers (`YtDlpHandler`, `TikTokHandler`,
`InstagramHandler`), the resolution engine `AllInOneDownloader.try_download`,
the direct downloader `_fast_direct_download`, and the interactive-loop input
dispatch of `main_loop`.

External collaborators (the HTTP transport, the third-party resolution
services, the yt-dlp engine, the JSON library and the filesystem) are passed
in as explicit environment functions; every Python operation that can raise
is modelled with `Except`/`Option`. Character-level operations model the
ASCII behaviour of the corresponding Python operations (`str.lower`,
`str.strip`, the `\s` class); all strings appearing in the program and in
the claims are ASCII.
-/

set_option autoImplicit false

namespace DwHelper

/-! ## Python string primitives -/

/-- The characters matched by Python's `\s` class (ASCII range): space, tab,
newline, carriage return, vertical tab (11) and form feed (12). -/
def isPySpace (c : Char) : Bool :=
  c = ' ' || c = '\t' || c = '\n' || c = '\r' || c = Char.ofNat 11 || c = Char.ofNat 12

/-- Python `str.lower` on a character list (ASCII). -/
def pyLowerL (cs : List Char) : List Char := cs.map Char.toLower

/-- Python `str.strip()` on a character list: remove leading and trailing
whitespace. -/
def pyStripL (cs : List Char) : List Char :=
  ((cs.dropWhile isPySpace).reverse.dropWhile isPySpace).reverse

/-- Python's substring test `needle in hay`. -/
def containsSub (needle : List Char) : List Char → Bool
  | [] => needle.isPrefixOf ([] : List Char)
  | c :: t => needle.isPrefixOf (c :: t) || containsSub needle t

/-- Python `hay.startswith(needle)`. -/
def startsWithS (hay needle : String) : Bool := needle.data.isPrefixOf hay.data

/-! ## `clean_filename` (source lines 89-93)

```python
def clean_filename(dirty_name):
    name = re.sub(r'[<>:"/\\|?*]', '_', dirty_name)
    name = re.sub(r'\s+', '_', name.strip())
    name = re.sub(r'__+', '_', name)
    return name[:200].rstrip('_')
```
-/

/-- The characters of the class `[<>:"/\\|?*]`. -/
def forbiddenChar (c : Char) : Bool :=
  c = '<' || c = '>' || c = ':' || c = '"' || c = '/' || c = '\\' ||
  c = '|' || c = '?' || c = '*'

/-- `re.sub(r'[<>:"/\\|?*]', '_', s)`. -/
def subForbidden (cs : List Char) : List Char :=
  cs.map (fun c => if forbiddenChar c then '_' else c)

/-- `re.sub(r'\s+', '_', s)`: each maximal whitespace run becomes one `'_'`. -/
def collapseSpaces : List Char → List Char
  | [] => []
  | [c] => if isPySpace c then ['_'] else [c]
  | a :: b :: rest =>
    if isPySpace a then
      if isPySpace b then collapseSpaces (b :: rest)
      else '_' :: collapseSpaces (b :: rest)
    else a :: collapseSpaces (b :: rest)

/-- `re.sub(r'__+', '_', s)`: each run of two or more `'_'` becomes one `'_'`
(a single `'_'` is left unchanged, so every maximal run collapses to one). -/
def collapseUnders : List Char → List Char
  | [] => []
  | [c] => [c]
  | a :: b :: rest =>
    if a = '_' && b = '_' then collapseUnders (b :: rest)
    else a :: collapseUnders (b :: rest)

/-- Python `s.rstrip('_')`. -/
def rstripUnders (cs : List Char) : List Char :=
  (cs.reverse.dropWhile (fun c => c = '_')).reverse

def clean_filename (s : String) : String :=
  let n1 := subForbidden s.data
  let n2 := collapseSpaces (pyStripL n1)
  let n3 := collapseUnders n2
  String.mk (rstripUnders (n3.take 200))

/-! ## `get_timestamp_ms` / `str(int)` -/

def digitChar (d : Nat) : Char := Char.ofNat (48 + d)

/-- Decimal rendering of a natural number (the model of Python `str(int)`
inside an f-string), written with structural fuel; `fuel = n + 1` always
suffices because the argument is divided by 10 at each step. -/
def natCharsAux (fuel : Nat) (n : Nat) : List Char :=
  match fuel with
  | 0 => []
  | fuel + 1 => if n < 10 then [digitChar n] else natCharsAux fuel (n / 10) ++ [digitChar (n % 10)]

def natChars (n : Nat) : List Char := natCharsAux (n + 1) n

/-! ## `VideoData` (source lines 96-113) -/

structure VideoData where
  original_url : String
  title : String := "video"
  username : String := "unknown"
  duration_sec : Option Int := none
  preview_url : Option String := none
  download_url : Option String := none
  source_name : String := "unknown"
  downloaded_ok : Bool := false
  fail_reason : Option String := none
  deriving DecidableEq

/-- Python `"_".join` on a non-empty list of parts. -/
def joinUnderscore : List String → String
  | [] => ""
  | [p] => p
  | p :: q :: rest => p ++ "_" ++ joinUnderscore (q :: rest)

/-- `VideoData.suggested_filename` (source lines 108-113); `ms` is the value
`get_timestamp_ms()` would return at the time of the call. -/
def suggested_filename (v : VideoData) (ms : Nat) : String :=
  let parts := [clean_filename v.username, clean_filename v.title]
  let cleanParts := parts.filter (fun p => !(p == ""))
  if cleanParts = [] then "video_" ++ String.mk (natChars ms) ++ ".mp4"
  else joinUnderscore cleanParts ++ ".mp4"

/-- The spec's record invariant: `resolved` (field `downloaded_ok`) holds
exactly when no `failure_reason` (field `fail_reason`) is set, and
`download_url` may be set only on a resolved record. -/
def recordInvariant (v : VideoData) : Prop :=
  (v.downloaded_ok = true ↔ v.fail_reason = none) ∧
  (v.download_url.isSome = true → v.downloaded_ok = true)

/-! ## The media-link scan (source lines 225-228)

`re.findall(r'(https?://[^"\']+\.mp4[^"\']*)', scanned)`.

For this pattern a match starting at a given position is: the literal
`https://` or `http://` (the `s` is taken greedily), followed by the maximal
run of characters other than `"` and `'`; the match succeeds exactly when
that run contains `.mp4` starting at index ≥ 1 (the `[^"\']+` needs at least
one character), and then the greedy `[^"\']*` extends the match to the end of
the run. `findall` returns the non-overlapping leftmost matches. -/

def isQuoteCh (c : Char) : Bool := c = '"' || c = '\''

def mp4Lit : List Char := ".mp4".data

/-- One match attempt at the head of `cs`: on success, the matched text and
the remainder of the input after the match. -/
def matchMp4At (cs : List Char) : Option (List Char × List Char) :=
  let proto : Option Nat :=
    if "https://".data.isPrefixOf cs then some 8
    else if "http://".data.isPrefixOf cs then some 7
    else none
  match proto with
  | none => none
  | some plen =>
    let rest := cs.drop plen
    let run := rest.takeWhile (fun c => !isQuoteCh c)
    if containsSub mp4Lit (run.drop 1) then
      some (cs.take plen ++ run, rest.drop run.length)
    else none

def findMp4Aux (fuel : Nat) (cs : List Char) : List (List Char) :=
  match fuel, cs with
  | 0, _ => []
  | _, [] => []
  | fuel + 1, c :: t =>
    match matchMp4At (c :: t) with
    | some (m, rest) => m :: findMp4Aux fuel rest
    | none => findMp4Aux fuel t

/-- All matches of the media-link pattern in `cs`, leftmost first. A full
match consumes at least 8 characters, so `cs.length` steps of fuel suffice. -/
def findMp4Links (cs : List Char) : List (List Char) := findMp4Aux cs.length cs

/-! ## `TikTokHandler` (source lines 183-244) -/

/-- `TIKTOK_USER_AGENTS` (source lines 48-55). -/
def USER_AGENT_DESKTOP : String :=
  "Mozilla/5.0 (Windows NT 10.0; Win64; x64) AppleWebKit/537.36 (KHTML, like Gecko) Chrome/132.0.0.0 Safari/537.36"

def USER_AGENT_MOBILE : String :=
  "Mozilla/5.0 (iPhone; CPU iPhone OS 17_2 like Mac OS X) AppleWebKit/605.1.15 (KHTML, like Gecko) Version/17.2 Mobile/15E148 Safari/604.1"

def TIKTOK_USER_AGENTS : List String :=
  [USER_AGENT_MOBILE,
   USER_AGENT_DESKTOP,
   "Mozilla/5.0 (Linux; Android 14; SM-S928B) AppleWebKit/537.36 (KHTML, like Gecko) Chrome/120.0.0.0 Mobile Safari/537.36",
   "Mozilla/5.0 (Linux; Android 13; Pixel 7) AppleWebKit/537.36 (KHTML, like Gecko) Chrome/119.0.0.0 Mobile Safari/537.36"]

/-- The User-Agent header in force during attempt `attempt` of
`TikTokHandler.extract_info`. In the source (lines 193-198) the header dict
is built once, before the `for attempt in range(1, 4)` loop, with a single
`random.choice(TIKTOK_USER_AGENTS)` draw, and is never reassigned inside the
loop; `rng k` models the `k`-th random index drawn during the call
(`random.choice` = index `rng k % len(pool)`). Consequently the value does
not depend on `attempt`. -/
def ttUAForAttempt (rng : Nat → Nat) (_attempt : Nat) : String :=
  TIKTOK_USER_AGENTS.getD (rng 0 % TIKTOK_USER_AGENTS.length) ""

/-- Modelled from the spec: "Rotate a randomized User-Agent from a
platform-plausible pool on every attempt" — a fresh random draw is made for
each attempt, so attempt `a` uses draw `a`. Stated only to be compared with
the source-derived `ttUAForAttempt`. -/
def ttUAFreshPerAttempt (rng : Nat → Nat) (attempt : Nat) : String :=
  TIKTOK_USER_AGENTS.getD (rng attempt % TIKTOK_USER_AGENTS.length) ""

/-- Matches `[^/]+/video/` after the literal `tiktok.com/@`: at least one
non-`/` character already consumed, then at each position either `/video/`
begins or another non-`/` character is consumed. -/
def seekVideoTT : List Char → Bool
  | [] => false
  | c :: cs => "/video/".data.isPrefixOf (c :: cs) || (!(c = '/') && seekVideoTT cs)

/-- `[^/]+/video/` at the head of `cs`. -/
def ttAtTail (cs : List Char) : Bool :=
  match cs with
  | [] => false
  | c :: cs => !(c = '/') && seekVideoTT cs

/-- `re.search(r'tiktok\.com/@[^/]+/video/', u)` on an already lowercased `u`. -/
def ttPat1 : List Char → Bool
  | [] => false
  | c :: cs =>
    ("tiktok.com/@".data.isPrefixOf (c :: cs) && ttAtTail ((c :: cs).drop 12)) || ttPat1 cs

/-- `TikTokHandler.can_handle` (source lines 184-191): any of the four
patterns matches the URL, case-insensitively. -/
def ttCanHandle (url : String) : Bool :=
  let u := pyLowerL url.data
  ttPat1 u || containsSub "tiktok.com/t/".data u ||
  containsSub "vm.tiktok.com/".data u || containsSub "vt.tiktok.com/".data u

/-- What the code observes of one candidate-service HTTP call:
`raise` (the request raised a transport error), or a response with status
code, body text, and — when the body parses as JSON — the result of
`json.dumps(r.json())` (`none` means `r.json()` would raise). -/
inductive TTResp where
  | raise
  | resp (status : Nat) (text : String) (jsonDump : Option String)
  deriving DecidableEq

/-- The text scanned for links (source line 227):
`text.lower() + json.dumps(r.json() if r.text.strip().startswith('{') else \x7b\x7d)`.
Returns `none` when the body starts with a brace but `r.json()` raises
(invalid JSON) — in the source that exception aborts the whole attempt. -/
def scanText (text : String) (jsonDump : Option String) : Option (List Char) :=
  if (pyStripL text.data).head? = some (Char.ofNat 123) then
    match jsonDump with
    | none => none
    | some d => some (pyLowerL text.data ++ d.data)
  else some (pyLowerL text.data ++ [Char.ofNat 123, Char.ofNat 125])

/-- The first link of the scan accepted by the filter at source line 231:
`"watermark" not in link.lower() and len(link) > 50`. -/
def firstAcceptable (links : List (List Char)) : Option (List Char) :=
  links.find? (fun l => !containsSub "watermark".data (pyLowerL l) && decide (50 < l.length))

/-- Processing of one candidate service inside an attempt (source lines
206-238). `Except.error ()` models an exception that aborts the attempt;
`.ok none` means "try the next service"; `.ok (some v)` is the returned
record. `ms` is the `get_timestamp_ms()` value at the return point. -/
def ttProcessService (url : String) (ms : Nat) (r : TTResp) : Except Unit (Option VideoData) :=
  match r with
  | .raise => .error ()
  | .resp status text jsonDump =>
    if status ≠ 200 then .ok none
    else
      match scanText text jsonDump with
      | none => .error ()
      | some scanned =>
        match firstAcceptable (findMp4Links scanned) with
        | some link =>
          .ok (some { original_url := url,
                      download_url := some (String.mk link),
                      title := "tiktok_" ++ String.mk (natChars ms),
                      source_name := "tiktok_direct",
                      downloaded_ok := true })
        | none => .ok none

/-- One iteration of the `for attempt` loop. `env a s` is the response of
service `s` on attempt `a`; the service list (source lines 200-204) is
`ssstik` (index 0), `tiktokio` (index 1, skipped by the `else: continue`
branch, its endpoint is never contacted), `tikwm` (index 2). An exception
anywhere in the attempt body lands in the bare `except: continue`, ending
the attempt (the remaining services of that attempt are skipped); the
`time.sleep` backoff has no observable effect on the result. -/
def ttAttempt (env : Nat → Nat → TTResp) (url : String) (ms a : Nat) : Option VideoData :=
  match ttProcessService url ms (env a 0) with
  | .error _ => none
  | .ok (some v) => some v
  | .ok none =>
    match ttProcessService url ms (env a 2) with
    | .error _ => none
    | .ok (some v) => some v
    | .ok none => none

/-- `TikTokHandler.extract_info` (source lines 193-244): three attempts, then
the failure record `fail_reason="all tiktok methods failed"`. -/
def tiktokExtractInfo (env : Nat → Nat → TTResp) (url : String) (ms : Nat) : VideoData :=
  match ttAttempt env url ms 1 with
  | some v => v
  | none =>
    match ttAttempt env url ms 2 with
    | some v => v
    | none =>
      match ttAttempt env url ms 3 with
      | some v => v
      | none => { original_url := url, fail_reason := some "all tiktok methods failed" }

/-! ## `InstagramHandler` (source lines 247-286) -/

/-- `InstagramHandler.can_handle`:
`re.search(r'(instagram\.com|instagr\.am)/(p|reel)/', url, re.I)`. -/
def igCanHandle (url : String) : Bool :=
  let u := pyLowerL url.data
  containsSub "instagram.com/p/".data u || containsSub "instagram.com/reel/".data u ||
  containsSub "instagr.am/p/".data u || containsSub "instagr.am/reel/".data u

/-- What the code observes of `data = r.json()` on an Instagram variant:
`parseError` (invalid JSON, `r.json()` raises — swallowed by the inner
`except`), `noGraphql` (no `"graphql"` key), `mediaErr` (a `KeyError` while
reading `data["graphql"]["shortcode_media"]` or, later, `media["owner"]` —
also swallowed), or the media descriptor. `owner = none` means the
`media["owner"]` lookup raises; `videoUrl` is `media.get("video_url")`
(`none` for an absent key). -/
inductive IgJson where
  | noGraphql
  | mediaErr
  | media (title : Option String) (owner : Option (Option String)) (videoUrl : Option String)
  deriving DecidableEq

/-- One variant-request outcome: a raised transport error, or a response with
status, whether `r.text.strip()` is non-empty, and the parsed JSON
(`none` = parse error). -/
inductive IgResp where
  | raise
  | resp (status : Nat) (textNonempty : Bool) (parsed : Option IgJson)
  deriving DecidableEq

/-- `url.split('?')[0].rstrip('/')` (source line 252). -/
def igCleanUrl (url : String) : List Char :=
  ((url.data.takeWhile (fun c => !(c = '?'))).reverse.dropWhile (fun c => c = '/')).reverse

/-- The three URL variants tried in order (source lines 253-257). -/
def igAttemptUrls (url : String) : List (List Char) :=
  [igCleanUrl url ++ "/?__a=1&__d=dis".data,
   igCleanUrl url ++ "/embed".data,
   igCleanUrl url ++ "/?__a=1".data]

/-- Processing of one URL variant (source lines 259-284). `some v` is the
returned record; `none` means the loop moves to the next variant (every
error on the way is swallowed). The `media.get("video_url")` truthiness test
requires a present, non-empty value; `media["owner"]` is only read after
that test succeeds. `ms` is the `get_timestamp_ms()` value used in the
default title. -/
def igVariant (url : String) (ms : Nat) (attemptUrl : List Char) (r : IgResp) :
    Option VideoData :=
  match r with
  | .raise => none
  | .resp status textNonempty parsed =>
    if status ≠ 200 then none
    else if containsSub "__a=1".data attemptUrl && textNonempty then
      match parsed with
      | none => none
      | some .noGraphql => none
      | some .mediaErr => none
      | some (.media title owner videoUrl) =>
        match videoUrl with
        | none => none
        | some vu =>
          if vu = "" then none
          else
            match owner with
            | none => none
            | some ownerUsername =>
              some { original_url := url,
                     title := title.getD ("ig_" ++ String.mk (natChars ms)),
                     username := ownerUsername.getD "unknown",
                     download_url := some vu,
                     source_name := "instagram_graphql",
                     downloaded_ok := true }
    else none

/-- `InstagramHandler.extract_info` (source lines 251-286): the three
variants in order, then `fail_reason="instagram methods exhausted"`. -/
def igExtractInfo (env : Nat → IgResp) (url : String) (ms : Nat) : VideoData :=
  match igVariant url ms ((igAttemptUrls url).getD 0 []) (env 0) with
  | some v => v
  | none =>
    match igVariant url ms ((igAttemptUrls url).getD 1 []) (env 1) with
    | some v => v
    | none =>
      match igVariant url ms ((igAttemptUrls url).getD 2 []) (env 2) with
      | some v => v
      | none => { original_url := url, fail_reason := some "instagram methods exhausted" }

/-! ## `YtDlpHandler` (source lines 130-180) -/

/-- The fields `extract_info` reads from yt-dlp's metadata dictionary
(`info_dict.get(...)`, source lines 145-149). -/
structure YtInfo where
  title : Option String := none
  uploader : Option String := none
  duration : Option Int := none
  thumbnail : Option String := none
  extractor : Option String := none
  deriving DecidableEq

/-- `YtDlpHandler.extract_info` (source lines 139-156). `ydlX url` is the
outcome of `ydl.extract_info(url, download=False)`: metadata, or the message
of the raised exception. -/
def ytExtractInfo (ydlX : String → Except String YtInfo) (url : String) : VideoData :=
  match ydlX url with
  | .ok d =>
    { original_url := url,
      title := d.title.getD "no_title",
      username := d.uploader.getD "unknown",
      duration_sec := d.duration,
      preview_url := d.thumbnail,
      source_name := d.extractor.getD "yt-dlp",
      downloaded_ok := true }
  | .error e => { original_url := url, fail_reason := some ("yt-dlp extract error: " ++ e) }

/-- The download-outcome messages of the program, as distinguishable values.
The source returns free-text strings; the only one whose text cannot be
reproduced exactly is the minimum-size message, which interpolates a
float with two decimals, so messages are modelled as tagged values carrying
the data the text is built from. -/
inductive DlMsg where
  /-- a success: the output file path -/
  | path (p : String)
  /-- `"нет прямой ссылки"` (source line 333) -/
  | noDirectLink
  /-- `"файл слишком маленький (… МБ)"` for a completed stream of `bytes`
  bytes (source line 350) -/
  | tooSmall (bytes : Nat)
  /-- `"прямая загрузка не удалась: " + str(e)` (source line 355) -/
  | directFailed (e : String)
  /-- `"file missing or too small"` (source line 178) -/
  | fileMissingOrTooSmall
  /-- `str(e)` from `YtDlpHandler.perform_download` (source line 180) -/
  | ytdlpError (e : String)
  /-- `"не удалось подобрать подходящий способ"` (source line 328) -/
  | noMethod
  deriving DecidableEq

/-- `YtDlpHandler.perform_download` (source lines 158-180). `ydlD url` is the
outcome of `ydl.download([url])` followed by the file check on `out_path`:
an exception message, or `some size` when the file exists with `size` bytes
(`none` = missing). `ms` is the timestamp used by `suggested_filename`. -/
def ytPerformDownload (ydlD : String → Except String (Option Nat)) (ms : Nat)
    (video : VideoData) (save_folder : String) : Bool × DlMsg :=
  let out_path := save_folder ++ "/" ++ suggested_filename video ms
  match ydlD video.original_url with
  | .error e => (false, .ytdlpError e)
  | .ok none => (false, .fileMissingOrTooSmall)
  | .ok (some size) =>
    if 300000 < size then (true, .path out_path) else (false, .fileMissingOrTooSmall)

/-! ## Direct downloader `AllInOneDownloader._fast_direct_download`
(source lines 331-355) -/

/-- Outcome of the streaming GET of a direct link: a raised transport error
(with whether a partial file was left on disk when it raised), or a
completed stream of `bytes` bytes. -/
inductive StreamResult where
  | failed (e : String) (partialLeft : Bool)
  | completed (bytes : Nat)
  deriving DecidableEq

structure DirectOutcome where
  ok : Bool
  msg : DlMsg
  /-- `some p` iff a file remains at `p` after the call returns. -/
  fileKept : Option String
  deriving DecidableEq

/-- `_fast_direct_download`. The Python guard `if not video.download_url` is
truthiness: both `None` and the empty string take the no-direct-link branch.
The size check `size_mb < 0.3` computes `size / (1024*1024)` in binary
floating point; both the quotient (integer over a power of two) and the
comparison are exact there, and `bytes/1048576 < float(0.3)` holds exactly
when `10 * bytes < 3 * 1048576`, which is the comparison used here. On
violation the file is deleted (`os.unlink`) and a size-based failure is
returned. -/
def fastDirectDownload (direct : String → StreamResult) (ms : Nat)
    (video : VideoData) (folder : String) : DirectOutcome :=
  match video.download_url with
  | none => ⟨false, .noDirectLink, none⟩
  | some u =>
    if u = "" then ⟨false, .noDirectLink, none⟩
    else
      let target := folder ++ "/" ++ suggested_filename video ms
      match direct u with
      | .failed e partialLeft =>
        ⟨false, .directFailed e, if partialLeft then some target else none⟩
      | .completed n =>
        if 10 * n < 3145728 then ⟨false, .tooSmall n, none⟩
        else ⟨true, .path target, some target⟩

/-! ## The resolution engine `AllInOneDownloader.try_download`
(source lines 289-328) -/

/-- The only exception a handler's public operation lets escape:
`PlatformHandler.perform_download`'s `raise NotImplementedError`
(source line 127), inherited by `TikTokHandler` and `InstagramHandler`,
which do not override it. -/
inductive PyExn where
  | notImplemented
  deriving DecidableEq

/-- Python truthiness of an optional string (`None` and `""` are falsy). -/
def pyTruthyOpt : Option String → Bool
  | none => false
  | some s => !(s == "")

/-- A platform handler as the engine sees it. `extract_info` is a total
function: all three handler variants absorb every internal error (their
bodies are wrapped in `try`/`except` and the code before the loops cannot
raise). `perform_download` may raise. -/
structure Handler where
  name : String
  can_handle : String → Bool
  extract_info : String → VideoData
  perform_download : VideoData → String → Except PyExn (Bool × DlMsg)

/-- Events recorded while the engine runs: which handler's `extract_info`
was invoked, and whether the final yt-dlp fallback was invoked. -/
inductive TraceEv where
  | extractCall (hname : String)
  | fallbackCall
  deriving DecidableEq

/-- The `for handler in self.handlers` loop of `try_download` (source lines
302-319), instrumented with the trace of `extract_info` invocations.
`.ok none` means the loop fell through; `.ok (some r)` is an early return;
`.error e` is an exception raised out of `try_download`. -/
def chainLoop (direct : String → StreamResult) (dms : Nat) (url folder : String) :
    List Handler → Except PyExn (Option (Bool × DlMsg)) × List TraceEv
  | [] => (.ok none, [])
  | h :: hs =>
    if h.can_handle url = true then
      if (h.extract_info url).downloaded_ok && pyTruthyOpt (h.extract_info url).download_url then
        (.ok (some ((fastDirectDownload direct dms (h.extract_info url) folder).ok,
                    (fastDirectDownload direct dms (h.extract_info url) folder).msg)),
         [.extractCall h.name])
      else
        match h.perform_download (h.extract_info url) folder with
        | .error e => (.error e, [.extractCall h.name])
        | .ok (true, msg) => (.ok (some (true, msg)), [.extractCall h.name])
        | .ok (false, _) =>
          ((chainLoop direct dms url folder hs).1,
           .extractCall h.name :: (chainLoop direct dms url folder hs).2)
    else chainLoop direct dms url folder hs

/-- `AllInOneDownloader.try_download` (source lines 299-328). After the
loop, when `YT_DLP_AVAILABLE`, a fresh `YtDlpHandler` is built and its
`perform_download` is invoked on a fresh record `VideoData(original_url=url)`
(source lines 323-326); `fb`/`fms` are that call's yt-dlp environment and
timestamp. Otherwise the no-method failure is returned. -/
def tryDownload (direct : String → StreamResult) (dms : Nat) (handlers : List Handler)
    (ytAvail : Bool) (fb : String → Except String (Option Nat)) (fms : Nat)
    (url folder : String) : Except PyExn (Bool × DlMsg) × List TraceEv :=
  match chainLoop direct dms url folder handlers with
  | (.error e, t) => (.error e, t)
  | (.ok (some r), t) => (.ok r, t)
  | (.ok none, t) =>
    if ytAvail then
      (.ok (ytPerformDownload fb fms { original_url := url } folder), t ++ [.fallbackCall])
    else (.ok (false, .noMethod), t)

/-- The `YtDlpHandler` as a chain element. `can_handle` always returns true
(source lines 136-137); its `perform_download` never raises (its body is
`try`/`except`-wrapped). -/
def ytHandler (ydlX : String → Except String YtInfo)
    (ydlD : String → Except String (Option Nat)) (ms : Nat) : Handler :=
  { name := "YtDlpHandler",
    can_handle := fun _ => true,
    extract_info := fun url => ytExtractInfo ydlX url,
    perform_download := fun v folder => .ok (ytPerformDownload ydlD ms v folder) }

/-- The `TikTokHandler` as a chain element: it does not override
`perform_download`, so that operation is the base class's
`raise NotImplementedError` (source lines 126-127). -/
def tiktokHandler (env : Nat → Nat → TTResp) (ms : Nat) : Handler :=
  { name := "TikTokHandler",
    can_handle := ttCanHandle,
    extract_info := fun url => tiktokExtractInfo env url ms,
    perform_download := fun _ _ => .error .notImplemented }

/-- The `InstagramHandler` as a chain element: `perform_download` is likewise
the inherited `raise NotImplementedError`. -/
def instagramHandler (env : Nat → IgResp) (ms : Nat) : Handler :=
  { name := "InstagramHandler",
    can_handle := igCanHandle,
    extract_info := fun url => igExtractInfo env url ms,
    perform_download := fun _ _ => .error .notImplemented }

/-- The handler chain built by `AllInOneDownloader.__init__` (source lines
290-297): `YtDlpHandler` first when yt-dlp is available, then
`TikTokHandler`, then `InstagramHandler`. -/
def mkHandlers (ytAvail : Bool) (ydlX : String → Except String YtInfo)
    (ydlD : String → Except String (Option Nat)) (ttEnv : Nat → Nat → TTResp)
    (igEnv : Nat → IgResp) (ms : Nat) : List Handler :=
  (if ytAvail then [ytHandler ydlX ydlD ms] else []) ++
  [tiktokHandler ttEnv ms, instagramHandler igEnv ms]

/-! ## The interactive loop's input dispatch (`main_loop`, source lines
366-376) -/

inductive InputAction where
  /-- the `break` branch: input is one of `("exit", "q", "quit", "")` -/
  | quitLoop
  /-- the `"Похоже это не ссылка..."` branch: not an `http(s)://` link -/
  | notALink
  /-- the input reaches `downloader.try_download(link)` -/
  | download (url : String)
  deriving DecidableEq

/-- How one iteration of `main_loop` dispatches the raw input line:
`link = input(...).strip()`; `link.lower() in ("exit", "q", "quit", "")`
breaks the loop; a link not starting with `http://`/`https://` gets the
validation message and the loop continues; otherwise `try_download` runs. -/
def classifyInput (raw : String) : InputAction :=
  let link := String.mk (pyStripL raw.data)
  if String.mk (pyLowerL link.data) ∈ (["exit", "q", "quit", ""] : List String) then .quitLoop
  else if !(startsWithS link "http://" || startsWithS link "https://") then .notALink
  else .download link

/-- Only the `.download` action consults any handler (`try_download` is
invoked at source line 376 only on that path). -/
def consultsHandlers : InputAction → Bool
  | .download _ => true
  | _ => false

/-! ## Concrete environments used in the evaluation theorems -/

/-- Every candidate-service request answers with a 500, so every TikTok
extraction attempt fails. -/
def ttEnvFail : Nat → Nat → TTResp := fun _ _ => .resp 500 "" none

/-- Every Instagram variant answers with a 500. -/
def igEnvFail : Nat → IgResp := fun _ => .resp 500 false none

/-- `ydl.extract_info` raises. -/
def ydlXFail : String → Except String YtInfo := fun _ => .error "boom"

/-- `ydl.download` completes but leaves no output file. -/
def ydlDFail : String → Except String (Option Nat) := fun _ => .ok none

/-- `ydl.download` succeeds with a 1000000-byte output file. -/
def ydlDOk : String → Except String (Option Nat) := fun _ => .ok (some 1000000)

/-- A TikTok short-link URL matched by `TikTokHandler.can_handle`. -/
def urlTikTok : String := "https://vm.tiktok.com/abc123"

/-- A TikTok canonical video URL matched by the first `can_handle` pattern. -/
def urlTT3 : String := "https://www.tiktok.com/@user/video/123"

/-- A service response body containing a watermark-tagged media link and a
second, non-watermarked media link of exactly 50 characters. -/
def textC3 : String :=
  "x\"https://cdn.example/path-watermark-aaaa.mp4\" \"https://v.example/aaaaaaaaaaaaaaaaaaaaaaaaaaaa.mp4\"y"

/-- The first candidate service (ssstik, attempt 1) answers 200 with
`textC3`; everything else fails with a 404. -/
def ttEnvC3 : Nat → Nat → TTResp := fun a s =>
  match a, s with
  | 1, 0 => .resp 200 textC3 none
  | _, _ => .resp 404 "" none

/-- Like `textC3` but the non-watermarked link has 51 characters. -/
def textC3W : String :=
  "x\"https://cdn.example/path-watermark-aaaa.mp4\" \"https://v.example/aaaaaaaaaaaaaaaaaaaaaaaaaaaaa.mp4\"y"

/-- The 51-character non-watermarked link of `textC3W`. -/
def linkC3W : String := "https://v.example/aaaaaaaaaaaaaaaaaaaaaaaaaaaaa.mp4"

/-- The first candidate service (ssstik, attempt 1) answers 200 with
`textC3W`; everything else fails with a 404. -/
def ttEnvC3W : Nat → Nat → TTResp := fun a s =>
  match a, s with
  | 1, 0 => .resp 200 textC3W none
  | _, _ => .resp 404 "" none

/-- A URL matching neither specialized handler's pattern. -/
def urlPlain : String := "https://example.com/a"

/-- A character acceptable in a generated filename per claim C10: not in the
forbidden class and not whitespace. -/
def goodChar (c : Char) : Bool := !forbiddenChar c && !isPySpace c

/-! ## Record-invariant lemmas (claim C5) -/

theorem recordInvariant_fail (url msg : String) :
    recordInvariant { original_url := url, fail_reason := some msg } := by
  constructor
  · simp [recordInvariant]
  · intro h
    simp [Option.isSome] at h

theorem ttProcessService_some {url : String} {ms : Nat} {r : TTResp} {v : VideoData}
    (h : ttProcessService url ms r = .ok (some v)) :
    v.downloaded_ok = true ∧ v.fail_reason = none := by
  cases r with
  | raise => simp [ttProcessService] at h
  | resp status text jsonDump =>
    simp only [ttProcessService] at h
    split at h
    · simp at h
    · split at h
      · simp at h
      · split at h
        · rw [Except.ok.injEq, Option.some.injEq] at h
          subst h
          exact ⟨rfl, rfl⟩
        · simp at h

theorem ttAttempt_some {env : Nat → Nat → TTResp} {url : String} {ms a : Nat} {v : VideoData}
    (h : ttAttempt env url ms a = some v) :
    v.downloaded_ok = true ∧ v.fail_reason = none := by
  unfold ttAttempt at h
  split at h
  · simp at h
  · rename_i heq
    rw [Option.some.injEq] at h
    subst h
    exact ttProcessService_some heq
  · split at h
    · simp at h
    · rename_i heq
      rw [Option.some.injEq] at h
      subst h
      exact ttProcessService_some heq
    · simp at h

theorem igVariant_some {url : String} {ms : Nat} {au : List Char} {r : IgResp} {v : VideoData}
    (h : igVariant url ms au r = some v) :
    v.downloaded_ok = true ∧ v.fail_reason = none := by
  cases r with
  | raise => simp [igVariant] at h
  | resp status textNonempty parsed =>
    simp only [igVariant] at h
    split at h
    · simp at h
    · split at h
      · rcases parsed with _ | j
        · simp at h
        · rcases j with _ | _ | ⟨t, ow, vu⟩
          · simp at h
          · simp at h
          · rcases vu with _ | s
            · simp at h
            · simp only [] at h
              split at h
              · simp at h
              · rcases ow with _ | ou
                · simp at h
                · rw [Option.some.injEq] at h
                  subst h
                  exact ⟨rfl, rfl⟩
      · simp at h

/-! ## Claim theorems -/

/-- C1: the claim says no handler's public operation ever raises into
`try_download`. The code violates it: `TikTokHandler` (like
`InstagramHandler`) does not override `perform_download`, so the base
class's `raise NotImplementedError` (source line 127) escapes. Evaluation at
the failing input: a TikTok short-link URL, yt-dlp unavailable, every
candidate service answering 500 — `extract_info` returns the unresolved
failure record, `try_download` then calls the handler's `perform_download`,
and the exception propagates out of `try_download`. -/
theorem c1_perform_download_raises :
    tryDownload (fun _ => .failed "unused" false) 0
      (mkHandlers false ydlXFail ydlDFail ttEnvFail igEnvFail 0)
      false ydlDFail 0 urlTikTok "downloaded_videos" =
    (.error .notImplemented, [.extractCall "TikTokHandler"]) := rfl

/-- C2: the claim says that when every candidate service of a matching
platform handler fails across its 3 attempts, the engine falls back to the
generic yt-dlp extractor. The code never reaches that fallback: after the
TikTok extraction fails, `try_download` calls the handler's inherited
`perform_download`, which raises `NotImplementedError`. Here yt-dlp is
available, its in-chain handler fails both paths, every TikTok service
answers 500 on all 3 attempts, and the fallback environment `ydlDOk` would
succeed — yet the result is the escaped exception and the trace shows the
fallback was never invoked. -/
theorem c2_fallback_unreachable :
    tryDownload (fun _ => .failed "unused" false) 0
      (mkHandlers true ydlXFail ydlDFail ttEnvFail igEnvFail 0)
      true ydlDOk 0 urlTikTok "downloaded_videos" =
    (.error .notImplemented, [.extractCall "YtDlpHandler", .extractCall "TikTokHandler"]) := rfl

/-- C5: every record returned by a handler's `extract_info` satisfies the
invariant — `resolved` (`downloaded_ok`) holds iff no `failure_reason`
(`fail_reason`) is set, and `download_url` is set only on resolved records;
for all environments, URLs and timestamps, for all three handlers. -/
theorem c5_record_invariant (ttEnv : Nat → Nat → TTResp) (igEnv : Nat → IgResp)
    (ydlX : String → Except String YtInfo) (url : String) (ms : Nat) :
    recordInvariant (tiktokExtractInfo ttEnv url ms) ∧
    recordInvariant (igExtractInfo igEnv url ms) ∧
    recordInvariant (ytExtractInfo ydlX url) := by
  refine ⟨?_, ?_, ?_⟩
  · unfold tiktokExtractInfo
    split
    · rename_i v h
      obtain ⟨h1, h2⟩ := ttAttempt_some h
      exact ⟨by simp [h1, h2], fun _ => h1⟩
    · split
      · rename_i v h
        obtain ⟨h1, h2⟩ := ttAttempt_some h
        exact ⟨by simp [h1, h2], fun _ => h1⟩
      · split
        · rename_i v h
          obtain ⟨h1, h2⟩ := ttAttempt_some h
          exact ⟨by simp [h1, h2], fun _ => h1⟩
        · exact recordInvariant_fail url "all tiktok methods failed"
  · unfold igExtractInfo
    split
    · rename_i v h
      obtain ⟨h1, h2⟩ := igVariant_some h
      exact ⟨by simp [h1, h2], fun _ => h1⟩
    · split
      · rename_i v h
        obtain ⟨h1, h2⟩ := igVariant_some h
        exact ⟨by simp [h1, h2], fun _ => h1⟩
      · split
        · rename_i v h
          obtain ⟨h1, h2⟩ := igVariant_some h
          exact ⟨by simp [h1, h2], fun _ => h1⟩
        · exact recordInvariant_fail url "instagram methods exhausted"
  · unfold ytExtractInfo
    split
    · exact ⟨by simp, fun _ => rfl⟩
    · exact ⟨by simp [recordInvariant], fun h => by simp [Option.isSome] at h⟩

/-- C7: a completed direct-download stream whose file size is at or below
the 0.3 MB threshold (for integer byte counts, `n ≤ 314572` bytes — the
threshold 0.3 MB is 314572.8 bytes — which is exactly when the code's
`size_mb < 0.3` float comparison holds) is deleted and reported as a
size-based failure; the direct downloader never reports success for such a
file (success implies `314572 < n`). -/
theorem c7_min_size (direct : String → StreamResult) (dms : Nat) (v : VideoData)
    (folder u : String) (n : Nat)
    (hu : v.download_url = some u) (hne : u ≠ "") (hd : direct u = .completed n) :
    (n ≤ 314572 →
      (fastDirectDownload direct dms v folder).ok = false ∧
      (fastDirectDownload direct dms v folder).msg = .tooSmall n ∧
      (fastDirectDownload direct dms v folder).fileKept = none) ∧
    ((fastDirectDownload direct dms v folder).ok = true → 314572 < n) := by
  have hred : fastDirectDownload direct dms v folder =
      if 10 * n < 3145728 then ⟨false, .tooSmall n, none⟩
      else ⟨true, .path (folder ++ "/" ++ suggested_filename v dms),
            some (folder ++ "/" ++ suggested_filename v dms)⟩ := by
    unfold fastDirectDownload
    rw [hu]
    simp only [hne, if_false, hd]
  constructor
  · intro hsmall
    rw [hred, if_pos (by omega)]
    exact ⟨rfl, rfl, rfl⟩
  · intro hok
    rw [hred] at hok
    by_contra hgt
    rw [if_pos (by omega)] at hok
    simp at hok

/-- C7 witness: a 0-byte completed stream on a record with a direct link is
deleted and reported as a size failure. -/
theorem c7_min_size_witness :
    (fastDirectDownload (fun _ => .completed 0) 0
      { original_url := "u", download_url := some "https://x/a.mp4" } "f").ok = false ∧
    (fastDirectDownload (fun _ => .completed 0) 0
      { original_url := "u", download_url := some "https://x/a.mp4" } "f").msg = .tooSmall 0 ∧
    (fastDirectDownload (fun _ => .completed 0) 0
      { original_url := "u", download_url := some "https://x/a.mp4" } "f").fileKept = none :=
  (c7_min_size (fun _ => .completed 0) 0
    { original_url := "u", download_url := some "https://x/a.mp4" } "f"
    "https://x/a.mp4" 0 rfl (by decide) rfl).1 (by decide)

/-- C8: the claim says a fresh random User-Agent is drawn on every attempt.
The code draws once, before the attempt loop (source line 195). With the
random stream `fun i => i` (whose successive draws select different pool
entries), attempts 1 and 2 use the same User-Agent, while the per-attempt
fresh selection the claim describes would give them different ones. -/
theorem c8_ua_not_rotated :
    ttUAForAttempt (fun i => i) 2 = ttUAForAttempt (fun i => i) 1 ∧
    ttUAFreshPerAttempt (fun i => i) 2 ≠ ttUAFreshPerAttempt (fun i => i) 1 :=
  ⟨rfl, by decide⟩

/-- C8 (amended): the User-Agent for a `TikTokHandler.extract_info` call is
selected once, by a single random draw made before the retry loop, and that
same User-Agent is used for all 3 attempts of the call. -/
theorem c8_ua_fixed_per_call (rng : Nat → Nat) (a b : Nat) :
    ttUAForAttempt rng a = ttUAForAttempt rng b ∧
    ttUAForAttempt rng a = TIKTOK_USER_AGENTS.getD (rng 0 % TIKTOK_USER_AGENTS.length) "" :=
  ⟨rfl, rfl⟩

/-- C9: the claim says the empty input is rejected with an input-validation
failure. The code instead treats `""` as an exit command: the membership
test `link.lower() in ("exit", "q", "quit", "")` (source line 368) breaks
the loop, so the not-a-link validation branch is never reached. -/
theorem c9_empty_is_exit :
    classifyInput "" = InputAction.quitLoop ∧ classifyInput "" ≠ InputAction.notALink :=
  ⟨rfl, by decide⟩

/-- C9 (amended): the empty input terminates the interactive loop before any
handler is consulted (it is one of the exit words, so `try_download` is
never invoked) and no input-validation failure is reported; the validation
branch is reserved for non-empty inputs that do not start with
`http://`/`https://`. -/
theorem c9_empty_exits_before_handlers :
    classifyInput "" = InputAction.quitLoop ∧
    consultsHandlers (classifyInput "") = false ∧
    classifyInput "notaurl" = InputAction.notALink :=
  ⟨rfl, rfl, rfl⟩

/-- C3: the claim accepts a non-watermarked link of *at least* 50
characters, but the filter at source line 231 is strict (`len(link) > 50`).
Concrete input: the first candidate service's response contains a
watermark-tagged media link and a non-watermarked media link of exactly 50
characters, yet `extract_info` rejects both and returns the unresolved
failure record instead of the 50-character link. -/
theorem c3_len50_rejected :
    ttCanHandle urlTT3 = true ∧
    ttEnvC3 1 0 = .resp 200 textC3 none ∧
    (scanText textC3 none).map findMp4Links =
      some ["https://cdn.example/path-watermark-aaaa.mp4".data,
            "https://v.example/aaaaaaaaaaaaaaaaaaaaaaaaaaaa.mp4".data] ∧
    containsSub "watermark".data
      (pyLowerL "https://cdn.example/path-watermark-aaaa.mp4".data) = true ∧
    containsSub "watermark".data
      (pyLowerL "https://v.example/aaaaaaaaaaaaaaaaaaaaaaaaaaaa.mp4".data) = false ∧
    "https://v.example/aaaaaaaaaaaaaaaaaaaaaaaaaaaa.mp4".length = 50 ∧
    tiktokExtractInfo ttEnvC3 urlTT3 0 =
      { original_url := urlTT3, fail_reason := some "all tiktok methods failed" } :=
  ⟨rfl, rfl, rfl, rfl, rfl, rfl, rfl⟩

/-- C3 (amended): when the first candidate service's response on the first
attempt is a 200 whose combined scan yields, as first link passing the
filter, a non-watermarked link of *more than* 50 characters, `extract_info`
returns that link as `download_url` with `resolved=true` and
`source_name="tiktok_direct"`; the direct downloader invoked on that record
reports success with the target file path whenever the streamed transfer is
at least the minimum-size threshold. -/
theorem c3_first_service_link (ttEnv : Nat → Nat → TTResp) (url text : String)
    (jd : Option String) (scanned g : List Char) (ms : Nat)
    (direct : String → StreamResult) (dms n : Nat) (folder : String)
    (h1 : ttEnv 1 0 = .resp 200 text jd)
    (h2 : scanText text jd = some scanned)
    (h3 : firstAcceptable (findMp4Links scanned) = some g)
    (h4 : direct (String.mk g) = .completed n)
    (h5 : 3145728 ≤ 10 * n) :
    tiktokExtractInfo ttEnv url ms =
      { original_url := url,
        download_url := some (String.mk g),
        title := "tiktok_" ++ String.mk (natChars ms),
        source_name := "tiktok_direct",
        downloaded_ok := true } ∧
    (fastDirectDownload direct dms (tiktokExtractInfo ttEnv url ms) folder).ok = true ∧
    (fastDirectDownload direct dms (tiktokExtractInfo ttEnv url ms) folder).msg =
      .path (folder ++ "/" ++ suggested_filename (tiktokExtractInfo ttEnv url ms) dms) := by
  have hgood := List.find?_some h3
  rw [Bool.and_eq_true] at hgood
  have hlen : 50 < g.length := by
    have := hgood.2
    simpa using this
  have hne : String.mk g ≠ "" := by
    intro hmk
    have hdata : g = ([] : List Char) := congrArg String.data hmk
    subst hdata
    simp at hlen
  have hP : ttProcessService url ms (ttEnv 1 0) =
      .ok (some { original_url := url,
                  download_url := some (String.mk g),
                  title := "tiktok_" ++ String.mk (natChars ms),
                  source_name := "tiktok_direct",
                  downloaded_ok := true }) := by
    rw [h1]
    simp [ttProcessService, h2, h3]
  have hA : ttAttempt ttEnv url ms 1 =
      some { original_url := url,
             download_url := some (String.mk g),
             title := "tiktok_" ++ String.mk (natChars ms),
             source_name := "tiktok_direct",
             downloaded_ok := true } := by
    unfold ttAttempt
    rw [hP]
  have hv : tiktokExtractInfo ttEnv url ms =
      { original_url := url,
        download_url := some (String.mk g),
        title := "tiktok_" ++ String.mk (natChars ms),
        source_name := "tiktok_direct",
        downloaded_ok := true } := by
    unfold tiktokExtractInfo
    rw [hA]
  refine ⟨hv, ?_⟩
  rw [hv]
  have hred : fastDirectDownload direct dms
      { original_url := url,
        download_url := some (String.mk g),
        title := "tiktok_" ++ String.mk (natChars ms),
        source_name := "tiktok_direct",
        downloaded_ok := true } folder =
      ⟨true, .path (folder ++ "/" ++ suggested_filename
          { original_url := url,
            download_url := some (String.mk g),
            title := "tiktok_" ++ String.mk (natChars ms),
            source_name := "tiktok_direct",
            downloaded_ok := true } dms),
        some (folder ++ "/" ++ suggested_filename
          { original_url := url,
            download_url := some (String.mk g),
            title := "tiktok_" ++ String.mk (natChars ms),
            source_name := "tiktok_direct",
            downloaded_ok := true } dms)⟩ := by
    unfold fastDirectDownload
    simp only [hne, if_false, h4]
    rw [if_neg (by omega)]
  rw [hred]
  exact ⟨rfl, rfl⟩

/-- C3 witness: a concrete 51-character non-watermarked link next to a
watermarked one is returned as the direct link, and a 1000000-byte stream
downloads successfully. -/
theorem c3_first_service_link_witness :
    (tiktokExtractInfo ttEnvC3W urlTT3 0).download_url = some linkC3W ∧
    (fastDirectDownload (fun _ => .completed 1000000) 0
      (tiktokExtractInfo ttEnvC3W urlTT3 0) "dl").ok = true := by
  have h := c3_first_service_link ttEnvC3W urlTT3 textC3W none
    (pyLowerL textC3W.data ++ [Char.ofNat 123, Char.ofNat 125]) linkC3W.data 0
    (fun _ => .completed 1000000) 0 1000000 "dl" rfl rfl rfl rfl (by omega)
  exact ⟨by rw [h.1], h.2.1⟩

/-- If the loop falls through a prefix of the chain (no return, no
exception), running the extended chain is running the rest, with the
prefix's trace in front. -/
theorem chainLoop_append (direct : String → StreamResult) (dms : Nat) (url folder : String)
    (rest : List Handler) :
    ∀ pre : List Handler, (chainLoop direct dms url folder pre).1 = .ok none →
      chainLoop direct dms url folder (pre ++ rest) =
        ((chainLoop direct dms url folder rest).1,
         (chainLoop direct dms url folder pre).2 ++ (chainLoop direct dms url folder rest).2) := by
  intro pre
  induction pre with
  | nil => intro _; simp [chainLoop]
  | cons h0 t ih =>
    intro hp
    by_cases hc : h0.can_handle url = true
    · by_cases hdl : ((h0.extract_info url).downloaded_ok &&
          pyTruthyOpt (h0.extract_info url).download_url) = true
      · exfalso
        simp only [chainLoop, hc, if_true, hdl] at hp
        simp at hp
      · rw [Bool.not_eq_true] at hdl
        cases hpd : h0.perform_download (h0.extract_info url) folder with
        | error e =>
          exfalso
          simp only [chainLoop, hc, if_true, hdl, hpd] at hp
          simp at hp
        | ok bm =>
          rcases bm with ⟨b, m⟩
          cases b with
          | true =>
            exfalso
            simp only [chainLoop, hc, if_true, hdl, hpd] at hp
            simp at hp
          | false =>
            have hp' : (chainLoop direct dms url folder t).1 = .ok none := by
              simp only [chainLoop, hc, if_true, hdl, hpd] at hp
              simpa using hp
            have hrec := ih hp'
            have hL : chainLoop direct dms url folder (h0 :: t) =
                ((chainLoop direct dms url folder t).1,
                 .extractCall h0.name :: (chainLoop direct dms url folder t).2) := by
              simp only [chainLoop, hc, if_true, hdl, hpd]
              simp
            have hL2 : chainLoop direct dms url folder ((h0 :: t) ++ rest) =
                ((chainLoop direct dms url folder (t ++ rest)).1,
                 .extractCall h0.name :: (chainLoop direct dms url folder (t ++ rest)).2) := by
              rw [List.cons_append]
              simp only [chainLoop, hc, if_true, hdl, hpd]
              simp
            rw [hL2, hrec, hL]
            simp
    · have heq : chainLoop direct dms url folder (h0 :: t) =
          chainLoop direct dms url folder t := by
        simp only [chainLoop, hc]
        simp
      rw [heq] at hp
      have hrec := ih hp
      have heq2 : chainLoop direct dms url folder ((h0 :: t) ++ rest) =
          chainLoop direct dms url folder (t ++ rest) := by
        rw [List.cons_append]
        simp only [chainLoop, hc]
        simp
      rw [heq2, hrec, heq]

/-- C4: a handler reached by the loop whose `extract_info` yields a resolved
record with a (truthy) `download_url` short-circuits the chain: the engine
returns the Direct Downloader's outcome — success *or failure* — as the
final result, the trace ends at that handler's `extract_info`, and neither
any later handler's `extract_info` nor the yt-dlp fallback is invoked. -/
theorem c4_short_circuit (direct : String → StreamResult) (dms : Nat)
    (pre post : List Handler) (h : Handler) (ytAvail : Bool)
    (fb : String → Except String (Option Nat)) (fms : Nat) (url folder : String)
    (hpre : (chainLoop direct dms url folder pre).1 = .ok none)
    (hcan : h.can_handle url = true)
    (hok : (h.extract_info url).downloaded_ok = true)
    (hurl : pyTruthyOpt (h.extract_info url).download_url = true) :
    tryDownload direct dms (pre ++ h :: post) ytAvail fb fms url folder =
      (.ok ((fastDirectDownload direct dms (h.extract_info url) folder).ok,
            (fastDirectDownload direct dms (h.extract_info url) folder).msg),
       (chainLoop direct dms url folder pre).2 ++ [.extractCall h.name]) := by
  have hstep : chainLoop direct dms url folder (h :: post) =
      (.ok (some ((fastDirectDownload direct dms (h.extract_info url) folder).ok,
                  (fastDirectDownload direct dms (h.extract_info url) folder).msg)),
       [.extractCall h.name]) := by
    simp only [chainLoop, hcan, if_true, hok, hurl]
    simp
  have happ := chainLoop_append direct dms url folder (h :: post) pre hpre
  unfold tryDownload
  rw [happ, hstep]

/-- C4 witness: with an empty prefix, `TikTokHandler` resolving a direct
link, `InstagramHandler` after it in the chain and yt-dlp available, a
failing direct download ("timeout") is returned as the final failure — the
Instagram handler and the fallback are never consulted. -/
theorem c4_short_circuit_witness :
    tryDownload (fun _ => .failed "timeout" false) 0
      ([] ++ tiktokHandler ttEnvC3W 0 :: [instagramHandler igEnvFail 0])
      true ydlDOk 0 urlTT3 "dl" =
      (.ok (false, .directFailed "timeout"), [.extractCall "TikTokHandler"]) := by
  have h := c4_short_circuit (fun _ => .failed "timeout" false) 0 [] [instagramHandler igEnvFail 0]
    (tiktokHandler ttEnvC3W 0) true ydlDOk 0 urlTT3 "dl" rfl rfl rfl rfl
  exact h.trans (by rfl)

/-- Loop step: an inapplicable handler is skipped. -/
theorem chainLoop_skip (direct : String → StreamResult) (dms : Nat) (url folder : String)
    (h : Handler) (hs : List Handler) (hc : h.can_handle url = false) :
    chainLoop direct dms url folder (h :: hs) = chainLoop direct dms url folder hs := by
  simp only [chainLoop, hc]
  simp

/-- Loop step: an applicable handler without a direct link whose
`perform_download` fails lets the loop continue, recording its extraction. -/
theorem chainLoop_continue (direct : String → StreamResult) (dms : Nat) (url folder : String)
    (h : Handler) (hs : List Handler) (hc : h.can_handle url = true)
    (hdl : ((h.extract_info url).downloaded_ok &&
      pyTruthyOpt (h.extract_info url).download_url) = false)
    (m : DlMsg) (hpd : h.perform_download (h.extract_info url) folder = .ok (false, m)) :
    chainLoop direct dms url folder (h :: hs) =
      ((chainLoop direct dms url folder hs).1,
       .extractCall h.name :: (chainLoop direct dms url folder hs).2) := by
  simp only [chainLoop, hc, hdl, hpd]
  simp

/-- Loop step: an applicable handler without a direct link whose
`perform_download` succeeds returns immediately. -/
theorem chainLoop_return (direct : String → StreamResult) (dms : Nat) (url folder : String)
    (h : Handler) (hs : List Handler) (hc : h.can_handle url = true)
    (hdl : ((h.extract_info url).downloaded_ok &&
      pyTruthyOpt (h.extract_info url).download_url) = false)
    (m : DlMsg) (hpd : h.perform_download (h.extract_info url) folder = .ok (true, m)) :
    chainLoop direct dms url folder (h :: hs) =
      (.ok (some (true, m)), [.extractCall h.name]) := by
  simp only [chainLoop, hc, hdl, hpd]
  simp

/-- `YtDlpHandler.extract_info` never sets a direct link: on success it
fills only metadata, on failure only `fail_reason`. -/
theorem ytExtractInfo_no_url (ydlX : String → Except String YtInfo) (url : String) :
    (ytExtractInfo ydlX url).download_url = none := by
  unfold ytExtractInfo
  cases ydlX url <;> rfl

/-- The trace of `try_download` extends the trace of its handler loop (by at
most the fallback marker). -/
theorem tryDownload_trace_ext (direct : String → StreamResult) (dms : Nat)
    (handlers : List Handler) (ytAvail : Bool) (fb : String → Except String (Option Nat))
    (fms : Nat) (url folder : String) :
    ∃ ext, (tryDownload direct dms handlers ytAvail fb fms url folder).2 =
      (chainLoop direct dms url folder handlers).2 ++ ext := by
  unfold tryDownload
  rcases hc : chainLoop direct dms url folder handlers with ⟨r, t⟩
  rcases r with e | o
  · exact ⟨[], by simp⟩
  · rcases o with _ | r
    · cases ytAvail with
      | true => exact ⟨[.fallbackCall], by simp⟩
      | false => exact ⟨[], by simp⟩
    · exact ⟨[], by simp⟩

/-- A chain starting with the `YtDlpHandler` always records that handler's
`extract_info` as its first trace event: it is applicable to every URL and
its records never carry a direct link, so the loop body always runs its
`perform_download` branch after extracting. -/
theorem chainLoop_yt_head (ydlX : String → Except String YtInfo)
    (ydlD : String → Except String (Option Nat)) (ms : Nat)
    (direct : String → StreamResult) (dms : Nat) (url folder : String)
    (hs : List Handler) :
    ∃ t, (chainLoop direct dms url folder (ytHandler ydlX ydlD ms :: hs)).2 =
      .extractCall "YtDlpHandler" :: t := by
  have hdl : (((ytHandler ydlX ydlD ms).extract_info url).downloaded_ok &&
      pyTruthyOpt ((ytHandler ydlX ydlD ms).extract_info url).download_url) = false := by
    have : ((ytHandler ydlX ydlD ms).extract_info url).download_url = none :=
      ytExtractInfo_no_url ydlX url
    rw [this]
    simp [pyTruthyOpt]
  rcases hb : ytPerformDownload ydlD ms ((ytHandler ydlX ydlD ms).extract_info url) folder
    with ⟨b, m⟩
  have hpd : (ytHandler ydlX ydlD ms).perform_download
      ((ytHandler ydlX ydlD ms).extract_info url) folder = .ok (b, m) := by
    show Except.ok (ytPerformDownload ydlD ms ((ytHandler ydlX ydlD ms).extract_info url) folder)
      = .ok (b, m)
    rw [hb]
  cases b with
  | true =>
    refine ⟨[], ?_⟩
    simp only [chainLoop, hdl, hpd]
    simp [ytHandler]
  | false =>
    refine ⟨(chainLoop direct dms url folder hs).2, ?_⟩
    simp only [chainLoop, hdl, hpd]
    simp [ytHandler]

/-- C6: the claim orders the chain most-specific first with the generic
extractor last. In the code `YtDlpHandler` is *first* (source lines
290-297): on a URL matched by the specialized TikTok handler, the generic
extractor's `extract_info` is invoked before the TikTok handler's, as the
trace of this concrete run shows. -/
theorem c6_generic_consulted_first :
    ttCanHandle urlTT3 = true ∧
    (tryDownload (fun _ => .completed 1000000) 0
       (mkHandlers true ydlXFail ydlDFail ttEnvC3W igEnvFail 0)
       true ydlDOk 0 urlTT3 "dl").2 =
      [.extractCall "YtDlpHandler", .extractCall "TikTokHandler"] :=
  ⟨rfl, rfl⟩

/-- C6 (amended): the generic yt-dlp handler is first in the chain, not
last. When yt-dlp is available its `extract_info` is always the first one
consulted, for every URL; and for a URL matching no specialized handler's
pattern the chain consults only the generic handler: when its in-chain
`perform_download` fails, the final fresh yt-dlp fallback is invoked and its
result is returned (trace = generic extraction, then the fallback call), and
when it succeeds, that success is returned with no fallback (trace = the
generic extraction alone). -/
theorem c6_generic_first_specialized_skipped (ydlX : String → Except String YtInfo)
    (ydlD fb : String → Except String (Option Nat)) (ttEnv : Nat → Nat → TTResp)
    (igEnv : Nat → IgResp) (direct : String → StreamResult) (dms ms fms : Nat)
    (url url2 folder : String)
    (h1 : ttCanHandle url = false) (h2 : igCanHandle url = false) :
    (∃ t, (tryDownload direct dms (mkHandlers true ydlX ydlD ttEnv igEnv ms)
        true fb fms url2 folder).2 = .extractCall "YtDlpHandler" :: t) ∧
    (∀ m : DlMsg,
      ytPerformDownload ydlD ms (ytExtractInfo ydlX url) folder = (false, m) →
      tryDownload direct dms (mkHandlers true ydlX ydlD ttEnv igEnv ms)
          true fb fms url folder =
        (.ok (ytPerformDownload fb fms { original_url := url } folder),
         [.extractCall "YtDlpHandler", .fallbackCall])) ∧
    (∀ m : DlMsg,
      ytPerformDownload ydlD ms (ytExtractInfo ydlX url) folder = (true, m) →
      tryDownload direct dms (mkHandlers true ydlX ydlD ttEnv igEnv ms)
          true fb fms url folder =
        (.ok (true, m), [.extractCall "YtDlpHandler"])) := by
  have hmk : mkHandlers true ydlX ydlD ttEnv igEnv ms =
      ytHandler ydlX ydlD ms :: [tiktokHandler ttEnv ms, instagramHandler igEnv ms] := by
    simp [mkHandlers]
  have hdl : (((ytHandler ydlX ydlD ms).extract_info url).downloaded_ok &&
      pyTruthyOpt ((ytHandler ydlX ydlD ms).extract_info url).download_url) = false := by
    have hnone : ((ytHandler ydlX ydlD ms).extract_info url).download_url = none :=
      ytExtractInfo_no_url ydlX url
    rw [hnone]
    simp [pyTruthyOpt]
  have hcyt : (ytHandler ydlX ydlD ms).can_handle url = true := rfl
  have htail : chainLoop direct dms url folder
      [tiktokHandler ttEnv ms, instagramHandler igEnv ms] = (.ok none, []) := by
    rw [chainLoop_skip direct dms url folder _ _ h1,
        chainLoop_skip direct dms url folder _ _ h2]
    rfl
  refine ⟨?_, ?_, ?_⟩
  · obtain ⟨t, ht⟩ := chainLoop_yt_head ydlX ydlD ms direct dms url2 folder
      [tiktokHandler ttEnv ms, instagramHandler igEnv ms]
    obtain ⟨ext, hext⟩ := tryDownload_trace_ext direct dms
      (mkHandlers true ydlX ydlD ttEnv igEnv ms) true fb fms url2 folder
    refine ⟨t ++ ext, ?_⟩
    rw [hext, hmk, ht]
    simp
  · intro m hm
    have hpd : (ytHandler ydlX ydlD ms).perform_download
        ((ytHandler ydlX ydlD ms).extract_info url) folder = .ok (false, m) := by
      show Except.ok
          (ytPerformDownload ydlD ms ((ytHandler ydlX ydlD ms).extract_info url) folder)
        = .ok (false, m)
      rw [show (ytHandler ydlX ydlD ms).extract_info url = ytExtractInfo ydlX url from rfl,
          hm]
    rw [hmk]
    unfold tryDownload
    rw [chainLoop_continue direct dms url folder _ _ hcyt hdl m hpd, htail]
    rfl
  · intro m hm
    have hpd : (ytHandler ydlX ydlD ms).perform_download
        ((ytHandler ydlX ydlD ms).extract_info url) folder = .ok (true, m) := by
      show Except.ok
          (ytPerformDownload ydlD ms ((ytHandler ydlX ydlD ms).extract_info url) folder)
        = .ok (true, m)
      rw [show (ytHandler ydlX ydlD ms).extract_info url = ytExtractInfo ydlX url from rfl,
          hm]
    rw [hmk]
    unfold tryDownload
    rw [chainLoop_return direct dms url folder _ _ hcyt hdl m hpd]
    rfl

/-- C6 witness: with yt-dlp available, the first trace event is the generic
handler's extraction even for a TikTok URL; and for a URL matching no
specialized pattern whose in-chain yt-dlp attempt fails (no output file),
the fresh yt-dlp fallback is invoked and its result — here a success — is
returned, the trace being the generic extraction followed by the fallback
call. -/
theorem c6_generic_first_witness :
    (∃ t, (tryDownload (fun _ => .failed "t" false) 0
        (mkHandlers true ydlXFail ydlDFail ttEnvFail igEnvFail 0)
        true ydlDOk 0 urlTT3 "dl").2 = .extractCall "YtDlpHandler" :: t) ∧
    (tryDownload (fun _ => .failed "t" false) 0
        (mkHandlers true ydlXFail ydlDFail ttEnvFail igEnvFail 0)
        true ydlDOk 0 urlPlain "dl") =
      (.ok (ytPerformDownload ydlDOk 0 { original_url := urlPlain } "dl"),
       [.extractCall "YtDlpHandler", .fallbackCall]) := by
  have h := c6_generic_first_specialized_skipped ydlXFail ydlDFail ydlDOk ttEnvFail igEnvFail
    (fun _ => .failed "t" false) 0 0 0 urlPlain urlTT3 "dl" rfl rfl
  exact ⟨h.1, h.2.1 .fileMissingOrTooSmall rfl⟩

/-! ## Filename lemmas (claim C10) -/

theorem mem_dropWhile {p : Char → Bool} : ∀ {cs : List Char} {c : Char},
    c ∈ cs.dropWhile p → c ∈ cs := by
  intro cs
  induction cs with
  | nil => intro c h; simp at h
  | cons a t ih =>
    intro c h
    by_cases hp : p a = true
    · rw [List.dropWhile_cons, if_pos hp] at h
      exact List.mem_cons_of_mem a (ih h)
    · rw [List.dropWhile_cons, if_neg hp] at h
      exact h

theorem mem_take {cs : List Char} {n : Nat} {c : Char} (h : c ∈ cs.take n) : c ∈ cs := by
  rcases List.mem_take_iff_getElem.1 h with ⟨i, hi, rfl⟩
  exact List.getElem_mem _

theorem mem_subForbidden {c : Char} {cs : List Char} (h : c ∈ subForbidden cs) :
    forbiddenChar c = false := by
  rcases List.mem_map.1 h with ⟨a, _, rfl⟩
  by_cases hf : forbiddenChar a = true
  · rw [if_pos hf]; decide
  · rw [if_neg hf]
    exact Bool.not_eq_true _ ▸ eq_false_of_ne_true hf

theorem mem_pyStripL {c : Char} {cs : List Char} (h : c ∈ pyStripL cs) : c ∈ cs := by
  unfold pyStripL at h
  rw [List.mem_reverse] at h
  have h2 := mem_dropWhile h
  rw [List.mem_reverse] at h2
  exact mem_dropWhile h2

theorem mem_rstripUnders {c : Char} {cs : List Char} (h : c ∈ rstripUnders cs) : c ∈ cs := by
  unfold rstripUnders at h
  rw [List.mem_reverse] at h
  have h2 := mem_dropWhile h
  rw [List.mem_reverse] at h2
  exact h2

theorem mem_collapseSpaces : ∀ {cs : List Char} {c : Char},
    c ∈ collapseSpaces cs → c = '_' ∨ (c ∈ cs ∧ isPySpace c = false) := by
  intro cs
  induction cs with
  | nil => intro c h; simp [collapseSpaces] at h
  | cons a t ih =>
    intro c h
    cases t with
    | nil =>
      by_cases hs : isPySpace a = true
      · simp only [collapseSpaces, if_pos hs] at h
        rw [List.mem_singleton] at h
        exact Or.inl h
      · simp only [collapseSpaces, if_neg hs] at h
        rw [List.mem_singleton] at h
        subst h
        exact Or.inr ⟨List.mem_singleton_self _, eq_false_of_ne_true hs⟩
    | cons b r =>
      by_cases hs : isPySpace a = true
      · by_cases hsb : isPySpace b = true
        · simp only [collapseSpaces, if_pos hs, if_pos hsb] at h
          rcases ih h with h1 | ⟨h2, h3⟩
          · exact Or.inl h1
          · exact Or.inr ⟨List.mem_cons_of_mem a h2, h3⟩
        · simp only [collapseSpaces, if_pos hs, if_neg hsb] at h
          rcases List.mem_cons.1 h with h1 | h1
          · exact Or.inl h1
          · rcases ih h1 with h2 | ⟨h3, h4⟩
            · exact Or.inl h2
            · exact Or.inr ⟨List.mem_cons_of_mem a h3, h4⟩
      · simp only [collapseSpaces, if_neg hs] at h
        rcases List.mem_cons.1 h with h1 | h1
        · subst h1
          exact Or.inr ⟨List.mem_cons_self _ _, eq_false_of_ne_true hs⟩
        · rcases ih h1 with h2 | ⟨h3, h4⟩
          · exact Or.inl h2
          · exact Or.inr ⟨List.mem_cons_of_mem a h3, h4⟩

theorem mem_collapseUnders : ∀ {cs : List Char} {c : Char},
    c ∈ collapseUnders cs → c ∈ cs := by
  intro cs
  induction cs with
  | nil => intro c h; simp [collapseUnders] at h
  | cons a t ih =>
    intro c h
    cases t with
    | nil => simpa [collapseUnders] using h
    | cons b r =>
      by_cases hu : (a = '_' && b = '_') = true
      · simp only [collapseUnders, if_pos hu] at h
        exact List.mem_cons_of_mem a (ih h)
      · simp only [collapseUnders, if_neg hu] at h
        rcases List.mem_cons.1 h with h1 | h1
        · exact h1 ▸ List.mem_cons_self a _
        · exact List.mem_cons_of_mem a (ih h1)

theorem clean_filename_good {c : Char} (s : String) (h : c ∈ (clean_filename s).data) :
    goodChar c = true := by
  have h1 : c ∈ rstripUnders ((collapseUnders (collapseSpaces
      (pyStripL (subForbidden s.data)))).take 200) := h
  have h2 := mem_take (mem_rstripUnders h1)
  have h3 := mem_collapseUnders h2
  rcases mem_collapseSpaces h3 with h4 | ⟨h5, h6⟩
  · subst h4; decide
  · have h7 := mem_subForbidden (mem_pyStripL h5)
    unfold goodChar
    rw [h7, h6]
    decide

theorem mem_joinUnderscore : ∀ {ps : List String} {c : Char},
    c ∈ (joinUnderscore ps).data → c = '_' ∨ ∃ p ∈ ps, c ∈ p.data := by
  intro ps
  induction ps with
  | nil => intro c h; simp [joinUnderscore] at h
  | cons p t ih =>
    intro c h
    cases t with
    | nil =>
      simp only [joinUnderscore] at h
      exact Or.inr ⟨p, List.mem_singleton_self p, h⟩
    | cons q r =>
      simp only [joinUnderscore] at h
      have hdata : (p ++ "_" ++ joinUnderscore (q :: r)).data =
          p.data ++ "_".data ++ (joinUnderscore (q :: r)).data := rfl
      rw [hdata] at h
      rcases List.mem_append.1 h with h1 | h1
      · rcases List.mem_append.1 h1 with h2 | h2
        · exact Or.inr ⟨p, List.mem_cons_self p _, h2⟩
        · rw [List.mem_singleton] at h2
          exact Or.inl h2
      · rcases ih h1 with h2 | ⟨p2, hp2, hc2⟩
        · exact Or.inl h2
        · exact Or.inr ⟨p2, List.mem_cons_of_mem p hp2, hc2⟩

theorem natCharsAux_good : ∀ (fuel n : Nat) {c : Char},
    c ∈ natCharsAux fuel n → goodChar c = true := by
  have hd : ∀ d, d < 10 → goodChar (digitChar d) = true := by decide
  intro fuel
  induction fuel with
  | zero => intro n c h; simp [natCharsAux] at h
  | succ fuel ih =>
    intro n c h
    by_cases hn : n < 10
    · simp only [natCharsAux, if_pos hn] at h
      rw [List.mem_singleton] at h
      subst h
      exact hd n hn
    · simp only [natCharsAux, if_neg hn] at h
      rcases List.mem_append.1 h with h1 | h1
      · exact ih _ h1
      · rw [List.mem_singleton] at h1
        subst h1
        exact hd _ (Nat.mod_lt n (by omega))

theorem video_prefix_good : ∀ c ∈ "video_".data, goodChar c = true := by decide

theorem mp4_suffix_good : ∀ c ∈ ".mp4".data, goodChar c = true := by decide

/-- C10: `suggested_filename` always yields a non-empty name ending in
`.mp4` whose characters are neither in the forbidden class
`< > : " / \\ | ? *` nor whitespace; when both `username` and `title`
sanitize to empty strings it falls back to the timestamp-based
`video_<ms>.mp4`. -/
theorem c10_suggested_filename (v : VideoData) (ms : Nat) :
    suggested_filename v ms ≠ "" ∧
    ".mp4".data <:+ (suggested_filename v ms).data ∧
    (∀ c ∈ (suggested_filename v ms).data, goodChar c = true) ∧
    ((clean_filename v.username = "" ∧ clean_filename v.title = "") →
      suggested_filename v ms = "video_" ++ String.mk (natChars ms) ++ ".mp4") := by
  by_cases hcp : ([clean_filename v.username, clean_filename v.title].filter
      (fun p => !(p == ""))) = []
  · have hf : suggested_filename v ms = "video_" ++ String.mk (natChars ms) ++ ".mp4" := by
      simp only [suggested_filename]
      rw [if_pos hcp]
    have hdata : ("video_" ++ String.mk (natChars ms) ++ ".mp4").data =
        ("video_".data ++ natChars ms) ++ ".mp4".data := rfl
    refine ⟨?_, ?_, ?_, fun _ => hf⟩
    · rw [hf]
      intro h0
      have hd : ("video_".data ++ natChars ms) ++ ".mp4".data = [] := by
        rw [← hdata, h0]
      have h4 := (List.append_eq_nil.1 hd).2
      simp at h4
    · rw [hf, hdata]
      exact List.suffix_append _ _
    · intro c hc
      rw [hf, hdata] at hc
      rcases List.mem_append.1 hc with h1 | h1
      · rcases List.mem_append.1 h1 with h2 | h2
        · exact video_prefix_good c h2
        · exact natCharsAux_good _ _ h2
      · exact mp4_suffix_good c h1
  · have hf : suggested_filename v ms =
        joinUnderscore ([clean_filename v.username, clean_filename v.title].filter
          (fun p => !(p == ""))) ++ ".mp4" := by
      simp only [suggested_filename]
      rw [if_neg hcp]
    have hdata : (joinUnderscore ([clean_filename v.username, clean_filename v.title].filter
          (fun p => !(p == ""))) ++ ".mp4").data =
        (joinUnderscore ([clean_filename v.username, clean_filename v.title].filter
          (fun p => !(p == "")))).data ++ ".mp4".data := rfl
    refine ⟨?_, ?_, ?_, ?_⟩
    · rw [hf]
      intro h0
      have hd := congrArg String.data h0
      rw [hdata] at hd
      have h4 := (List.append_eq_nil.1 hd).2
      simp at h4
    · rw [hf, hdata]
      exact List.suffix_append _ _
    · intro c hc
      rw [hf, hdata] at hc
      rcases List.mem_append.1 hc with h1 | h1
      · rcases mem_joinUnderscore h1 with h2 | ⟨p, hp, hc2⟩
        · subst h2; decide
        · have hp2 := List.mem_filter.1 hp
          rcases List.mem_cons.1 hp2.1 with h3 | h3
          · subst h3; exact clean_filename_good v.username hc2
          · rw [List.mem_singleton] at h3
            subst h3; exact clean_filename_good v.title hc2
      · exact mp4_suffix_good c h1
    · rintro ⟨hu, ht⟩
      exfalso
      apply hcp
      rw [hu, ht]
      rfl

/-- C10 witness: a record whose username and title both sanitize to the
empty string gets the timestamp fallback name. -/
theorem c10_suggested_filename_witness :
    (clean_filename "??" = "" ∧ clean_filename "**" = "") ∧
    suggested_filename { original_url := "u", title := "**", username := "??" } 123 =
      "video_123.mp4" := by
  have h := (c10_suggested_filename
    { original_url := "u", title := "**", username := "??" } 123).2.2.2 ⟨rfl, rfl⟩
  refine ⟨⟨rfl, rfl⟩, ?_⟩
  rw [h]
  rfl

end DwHelper
